import Mathlib

/-!
Verification of `src/flappy_biry.py`, a single-file pygame Flappy Bird clone.

The game state is embedded shallowly:
* `bird_y` and `bird_velocity` are floats in the source; every value they can
  take is a small dyadic rational (gravity is `0.5`, the jump impulse is `-9`,
  the initial position is an integer), so they are modelled exactly by `ℚ`.
* Pipes are the dicts appended by `create_pipe`; the random
  `random.randint(min_top_pipe_height, max_top_pipe_height)` draw is a
  parameter of the spawning step, constrained to the inclusive range that
  `randint` produces.
* `pygame.Rect` stores integer coordinates: float arguments are truncated
  toward zero, modelled by `pyTrunc`.
* Real time (`pygame.time.get_ticks`) only decides whether a pipe spawns this
  frame, so the spawn decision is a boolean parameter of the frame step.
-/

/-- `SCREEN_WIDTH = 600` -/
def SCREEN_WIDTH : Int := 600

/-- `SCREEN_HEIGHT = 800` -/
def SCREEN_HEIGHT : Int := 800

/-- `GROUND_HEIGHT = 100` -/
def GROUND_HEIGHT : Int := 100

/-- `PIPE_WIDTH = 80` -/
def PIPE_WIDTH : Int := 80

/-- `PIPE_GAP = 200` -/
def PIPE_GAP : Int := 200

/-- `PIPE_SPEED = 3` -/
def PIPE_SPEED : Int := 3

/-- `bird_width = 40` -/
def bird_width : Int := 40

/-- `bird_height = 30` -/
def bird_height : Int := 30

/-- `bird_x = 100` (the bird's horizontal position never changes) -/
def bird_x : Int := 100

/-- `gravity = 0.5` -/
def gravity : ℚ := 1/2

/-- `jump_power = -9` -/
def jump_power : ℚ := -9

/-- `ground_y = SCREEN_HEIGHT - GROUND_HEIGHT` -/
def ground_y : Int := SCREEN_HEIGHT - GROUND_HEIGHT

/-- Python `int()` conversion as applied by `pygame.Rect` to float
coordinates: truncation toward zero, i.e. the truncating division of the
numerator by the denominator. -/
def pyTrunc (q : ℚ) : Int := q.num.tdiv q.den

/-- One pipe pair, the dict appended by `create_pipe`:
`{'x': ..., 'top_height': ..., 'bottom_height': ..., 'passed': ...}`. -/
structure Pipe where
  x : Int
  top_height : Int
  bottom_height : Int
  passed : Bool
  deriving DecidableEq, Repr

/-- The mutable module-level game state of the script. -/
structure GameState where
  bird_y : ℚ
  bird_velocity : ℚ
  pipes : List Pipe
  score : Nat
  game_active : Bool
  deriving DecidableEq, Repr

/-- An integer rectangle in the sense of `pygame.Rect`. -/
structure Rect where
  x : Int
  y : Int
  w : Int
  h : Int
  deriving DecidableEq, Repr

def Rect.left (r : Rect) : Int := r.x

def Rect.right (r : Rect) : Int := r.x + r.w

def Rect.top (r : Rect) : Int := r.y

def Rect.bottom (r : Rect) : Int := r.y + r.h

/-- `pygame.Rect.colliderect`: overlap with strict inequalities (rectangles
touching only along an edge do not collide). -/
def colliderect (a b : Rect) : Bool :=
  a.left < b.right && a.right > b.left && a.top < b.bottom && a.bottom > b.top

/-- `bird_rect = pygame.Rect(bird_x, bird_y, bird_width, bird_height)`;
`bird_y` is a float and `pygame.Rect` truncates it. -/
def bird_rect_of (y : ℚ) : Rect :=
  { x := bird_x, y := pyTrunc y, w := bird_width, h := bird_height }

/-- The rectangle drawn/tested for a pipe's top segment:
`pygame.Rect(pipe['x'], 0, PIPE_WIDTH, pipe['top_height'])`. -/
def top_pipe_rect (p : Pipe) : Rect :=
  { x := p.x, y := 0, w := PIPE_WIDTH, h := p.top_height }

/-- The rectangle for a pipe's bottom segment:
`pygame.Rect(pipe['x'], SCREEN_HEIGHT - pipe['bottom_height'] - GROUND_HEIGHT,
PIPE_WIDTH, pipe['bottom_height'])`. -/
def bottom_pipe_rect (p : Pipe) : Rect :=
  { x := p.x, y := SCREEN_HEIGHT - p.bottom_height - GROUND_HEIGHT,
    w := PIPE_WIDTH, h := p.bottom_height }

/-- `create_pipe()` with the value returned by
`random.randint(min_top_pipe_height, max_top_pipe_height)` made explicit:
appends a new pipe at `x = SCREEN_WIDTH` with the complementary bottom
height and `passed = False`. -/
def create_pipe (topH : Int) (pipes : List Pipe) : List Pipe :=
  pipes ++ [{ x := SCREEN_WIDTH, top_height := topH,
              bottom_height := SCREEN_HEIGHT - GROUND_HEIGHT - topH - PIPE_GAP,
              passed := false }]

/-- `max_top_pipe_height = SCREEN_HEIGHT - GROUND_HEIGHT - PIPE_GAP - 50` -/
def max_top_pipe_height : Int := SCREEN_HEIGHT - GROUND_HEIGHT - PIPE_GAP - 50

/-- `min_top_pipe_height = 50` -/
def min_top_pipe_height : Int := 50

/-- `move_pipes`: shift every pipe left by `PIPE_SPEED`, then drop pipes
whose right edge is at or left of `0`. -/
def move_pipes (pipes : List Pipe) : List Pipe :=
  (pipes.map (fun p => { p with x := p.x - PIPE_SPEED })).filter
    (fun p => p.x + PIPE_WIDTH > 0)

/-- `check_collision(bird_rect, pipes)`: ground contact
(`bird_rect.bottom >= ground_y`) or overlap with any pipe segment. -/
def check_collision (bird_rect : Rect) (pipes : List Pipe) : Bool :=
  if bird_rect.bottom ≥ ground_y then true
  else pipes.any (fun p =>
    colliderect bird_rect (top_pipe_rect p) ||
    colliderect bird_rect (bottom_pipe_rect p))

/-- `update_score(bird_rect, pipes, current_score)`: walks the pipe list,
increments the score and sets `passed` for every pipe whose right edge is
strictly left of the bird's left edge and that is not yet `passed`.
Returns the mutated pipe list together with the new score. -/
def update_score (br : Rect) : List Pipe → Nat → List Pipe × Nat
  | [], sc => ([], sc)
  | p :: ps, sc =>
    if p.x + PIPE_WIDTH < br.left && !p.passed then
      let r := update_score br ps (sc + 1)
      ({ p with passed := true } :: r.1, r.2)
    else
      let r := update_score br ps sc
      (p :: r.1, r.2)

/-- The new velocity after the gravity line `bird_velocity += gravity`. -/
def stepVel (s : GameState) : ℚ := s.bird_velocity + gravity

/-- The position after `bird_y += bird_velocity`, before the top clamp. -/
def rawY (s : GameState) : ℚ := s.bird_y + stepVel s

/-- The position after the top-of-screen clamp `if bird_y < 0: bird_y = 0`. -/
def stepY (s : GameState) : ℚ := if rawY s < 0 then 0 else rawY s

/-- The pipe list after the (possible) spawn of this frame, before movement. -/
def spawnedPipes (spawn : Bool) (topH : Int) (s : GameState) : List Pipe :=
  if spawn then create_pipe topH s.pipes else s.pipes

/-- One pass of the `# --- Game Logic ---` block (lines 172–199): when
`game_active`, apply gravity and integrate, clamp at the top, spawn a pipe
when the timer fired (`spawn`), move pipes, test collisions (turning
`game_active` off on a hit), and run `update_score` unconditionally.
When not active the block is skipped entirely. -/
def tick (spawn : Bool) (topH : Int) (s : GameState) : GameState :=
  if s.game_active then
    let y := stepY s
    let v := if rawY s < 0 then 0 else stepVel s
    let pipes2 := move_pipes (spawnedPipes spawn topH s)
    let br := bird_rect_of y
    let active2 := !check_collision br pipes2
    let r := update_score br pipes2 s.score
    { bird_y := y, bird_velocity := v, pipes := r.1, score := r.2,
      game_active := active2 }
  else s

/-- The `K_SPACE` `KEYDOWN` handler (lines 158–169): when not active, reset
bird, pipes and score and activate; when active, set the jump impulse. -/
def pressSpace (s : GameState) : GameState :=
  if !s.game_active then
    { bird_y := SCREEN_HEIGHT / 2, bird_velocity := 0, pipes := [],
      score := 0, game_active := true }
  else
    { s with bird_velocity := jump_power }

/-- The state the module-level variables hold when the loop first runs. -/
def initState : GameState :=
  { bird_y := SCREEN_HEIGHT / 2, bird_velocity := 0, pipes := [],
    score := 0, game_active := false }

/-- Which screen the drawing section (lines 207–215) shows. -/
inductive Screen where
  | playing
  | gameOver
  | start
  deriving DecidableEq, Repr

/-- The branch taken by the drawing section: playing view when active,
otherwise the game-over screen iff `score > 0`, else the start screen. -/
def screenOf (s : GameState) : Screen :=
  if s.game_active then .playing
  else if s.score > 0 then .gameOver
  else .start

/-- One event the loop can process between frames: a game-logic frame with a
spawn decision and a `randint` draw in the inclusive range, or a space key. -/
inductive Step : GameState → GameState → Prop where
  | frame (spawn : Bool) (topH : Int) (s : GameState)
      (hlo : min_top_pipe_height ≤ topH) (hhi : topH ≤ max_top_pipe_height) :
      Step s (tick spawn topH s)
  | space (s : GameState) : Step s (pressSpace s)

/-- States the script can reach from its initial module-level state. -/
def Reachable (s : GameState) : Prop :=
  Relation.ReflTransGen Step initState s

/-! ### Helper lemmas -/

/-- `update_score` adds one to the score for exactly the pipes whose right
edge is strictly left of the bird's left edge and whose `passed` flag is
still clear. -/
theorem update_score_snd (br : Rect) (ps : List Pipe) (sc : Nat) :
    (update_score br ps sc).2 =
      sc + (ps.filter
        (fun p => p.x + PIPE_WIDTH < br.left && !p.passed)).length := by
  induction ps generalizing sc with
  | nil => simp [update_score]
  | cons p ps ih =>
    by_cases hc : (p.x + PIPE_WIDTH < br.left && !p.passed) = true
    · simp [update_score, hc, ih, Nat.add_assoc, Nat.add_comm 1]
    · simp [update_score, hc, ih]

/-- `update_score` only flips `passed` flags: the resulting list is the input
list with `passed` set exactly on the pipes that meet the scoring test. -/
theorem update_score_fst (br : Rect) (ps : List Pipe) (sc : Nat) :
    (update_score br ps sc).1 =
      ps.map (fun p =>
        { p with passed := p.passed || decide (p.x + PIPE_WIDTH < br.left) }) := by
  induction ps generalizing sc with
  | nil => simp [update_score]
  | cons p ps ih =>
    obtain ⟨px, pt, pb, pp⟩ := p
    cases pp <;> cases hlt : decide (px + PIPE_WIDTH < br.left) <;>
      simp [update_score, hlt, ih]

/-- For nonnegative rationals, truncation toward zero agrees with `⌊·⌋`. -/
theorem pyTrunc_eq_floor (q : ℚ) (h : 0 ≤ q) : pyTrunc q = ⌊q⌋ := by
  rw [pyTrunc, Rat.floor_def,
    Int.tdiv_eq_ediv (Rat.num_nonneg.mpr h) (by positivity)]

/-- While the game is inactive the logic block is skipped: a frame changes
nothing. -/
theorem tick_inactive (spawn : Bool) (topH : Int) (s : GameState)
    (h : s.game_active = false) : tick spawn topH s = s := by
  simp [tick, h]

/-- Field values of `tick` on an active state, unfolded. -/
theorem tick_active (spawn : Bool) (topH : Int) (s : GameState)
    (h : s.game_active = true) :
    tick spawn topH s =
      { bird_y := stepY s,
        bird_velocity := if rawY s < 0 then 0 else stepVel s,
        pipes := (update_score (bird_rect_of (stepY s))
          (move_pipes (spawnedPipes spawn topH s)) s.score).1,
        score := (update_score (bird_rect_of (stepY s))
          (move_pipes (spawnedPipes spawn topH s)) s.score).2,
        game_active := !check_collision (bird_rect_of (stepY s))
          (move_pipes (spawnedPipes spawn topH s)) } := by
  simp [tick, h]

/-! ### C1 -/

/-- C1: on an active frame the velocity first gains `gravity = 0.5`, the new
velocity is then added to the vertical position, and if the result is above
the top of the screen (`y < 0`) the position is clamped to `0` and the
velocity zeroed. -/
theorem C1_gravity_then_integrate_then_clamp (spawn : Bool) (topH : Int)
    (s : GameState) (h : s.game_active = true) :
    gravity = 1/2 ∧
    (tick spawn topH s).bird_velocity =
      (if s.bird_y + (s.bird_velocity + gravity) < 0 then 0
       else s.bird_velocity + gravity) ∧
    (tick spawn topH s).bird_y =
      (if s.bird_y + (s.bird_velocity + gravity) < 0 then 0
       else s.bird_y + (s.bird_velocity + gravity)) := by
  refine ⟨rfl, ?_, ?_⟩ <;> simp [tick, h, stepY, rawY, stepVel]

/-- Witness for C1 at the state reached by starting a game from the initial
state: one frame later the bird has velocity `1/2` and position `400.5`. -/
theorem C1_witness :
    (pressSpace initState).game_active = true ∧
    (gravity = 1/2 ∧
     (tick false 0 (pressSpace initState)).bird_velocity =
       (if (pressSpace initState).bird_y +
           ((pressSpace initState).bird_velocity + gravity) < 0 then 0
        else (pressSpace initState).bird_velocity + gravity) ∧
     (tick false 0 (pressSpace initState)).bird_y =
       (if (pressSpace initState).bird_y +
           ((pressSpace initState).bird_velocity + gravity) < 0 then 0
        else (pressSpace initState).bird_y +
          ((pressSpace initState).bird_velocity + gravity))) :=
  ⟨by decide,
   C1_gravity_then_integrate_then_clamp false 0 (pressSpace initState)
     (by decide)⟩

/-! ### Concrete example states for witnesses -/

/-- An active state about to fly into a pipe's top segment. -/
def exCrash : GameState :=
  { bird_y := 300, bird_velocity := 0,
    pipes := [{ x := 110, top_height := 400, bottom_height := 100,
                passed := false }],
    score := 0, game_active := true }

/-- A game-over state (inactive with a positive score). -/
def exOver : GameState :=
  { bird_y := 670, bird_velocity := 0, pipes := [], score := 3,
    game_active := false }

/-- An active state resting exactly on the ground boundary. -/
def exGround : GameState :=
  { bird_y := 670, bird_velocity := 0, pipes := [], score := 0,
    game_active := true }

/-- An active state that hits the ground on the next frame while a pipe's
right edge simultaneously moves past the bird's left edge. -/
def exDeathScore : GameState :=
  { bird_y := 670, bird_velocity := 0,
    pipes := [{ x := 22, top_height := 100, bottom_height := 400,
                passed := false }],
    score := 0, game_active := true }

/-! ### C2 -/

/-- C2: on an active frame the mode switches to game-over exactly when the
collision test (ground contact of the updated bird box, or overlap with any
pipe segment box, as computed by `check_collision` on the moved pipes) fires;
and once the mode is inactive a frame performs no bird, pipe or score update
at all until a restart input. -/
theorem C2_collision_ends_run_and_freezes (spawn : Bool) (topH : Int)
    (s : GameState) :
    (s.game_active = true →
      ((tick spawn topH s).game_active = false ↔
        check_collision (bird_rect_of (stepY s))
          (move_pipes (spawnedPipes spawn topH s)) = true)) ∧
    (s.game_active = false → tick spawn topH s = s) := by
  constructor
  · intro h
    simp [tick, h]
  · intro h
    simp [tick, h]

/-- Witness for C2: the state `exCrash` flies into a pipe and the frame turns
the mode off; the inactive state `exOver` is left untouched by a frame. -/
theorem C2_witness :
    (exCrash.game_active = true ∧ (tick false 0 exCrash).game_active = false) ∧
    (exOver.game_active = false ∧ tick true 100 exOver = exOver) := by
  have hy : stepY exCrash = 601/2 := by
    norm_num [stepY, rawY, stepVel, exCrash, gravity]
  have hbr : bird_rect_of (stepY exCrash) =
      { x := bird_x, y := 300, w := bird_width, h := bird_height } := by
    rw [bird_rect_of, hy, pyTrunc_eq_floor _ (by norm_num)]
    norm_num
  refine ⟨⟨rfl, ?_⟩,
    ⟨rfl, (C2_collision_ends_run_and_freezes true 100 exOver).2 rfl⟩⟩
  refine ((C2_collision_ends_run_and_freezes false 0 exCrash).1 rfl).mpr ?_
  rw [hbr]
  decide

/-! ### C5 -/

/-- C5: a space press while the mode is not active (first start or after a
game over) resets the bird to `SCREEN_HEIGHT / 2` with zero velocity, empties
the pipe list, zeroes the score, and activates the game. -/
theorem C5_restart_resets (s : GameState) (h : s.game_active = false) :
    pressSpace s =
      { bird_y := (SCREEN_HEIGHT : ℚ) / 2, bird_velocity := 0, pipes := [],
        score := 0, game_active := true } := by
  simp [pressSpace, h]

/-- Witness for C5 at the concrete game-over state `exOver`. -/
theorem C5_witness :
    exOver.game_active = false ∧
    pressSpace exOver =
      { bird_y := (SCREEN_HEIGHT : ℚ) / 2, bird_velocity := 0, pipes := [],
        score := 0, game_active := true } :=
  ⟨by decide, C5_restart_resets exOver rfl⟩

/-! ### C6 -/

/-- C6: a space press while active sets the velocity to `jump_power = -9`
whatever its current value, and changes no other field. -/
theorem C6_jump_sets_velocity (s : GameState) (h : s.game_active = true) :
    (pressSpace s).bird_velocity = -9 ∧
    (pressSpace s).bird_y = s.bird_y ∧
    (pressSpace s).pipes = s.pipes ∧
    (pressSpace s).score = s.score ∧
    (pressSpace s).game_active = s.game_active := by
  simp [pressSpace, h, jump_power]

/-- Witness for C6 at the concrete active state `exCrash`. -/
theorem C6_witness :
    exCrash.game_active = true ∧
    ((pressSpace exCrash).bird_velocity = -9 ∧
     (pressSpace exCrash).bird_y = exCrash.bird_y ∧
     (pressSpace exCrash).pipes = exCrash.pipes ∧
     (pressSpace exCrash).score = exCrash.score ∧
     (pressSpace exCrash).game_active = exCrash.game_active) :=
  ⟨by decide, C6_jump_sets_velocity exCrash rfl⟩

/-! ### C8 -/

/-- C8: when the mode is not active, the drawing section shows the game-over
screen iff the score is positive, and shows the start screen when the score
is zero (also right after a zero-score first-attempt crash). -/
theorem C8_gameover_iff_positive_score (s : GameState)
    (h : s.game_active = false) :
    (screenOf s = Screen.gameOver ↔ 0 < s.score) ∧
    (s.score = 0 → screenOf s = Screen.start) := by
  constructor
  · unfold screenOf
    simp [h]
    omega
  · intro hz
    simp [screenOf, h, hz]

/-- Witness for C8 at the game-over state `exOver` (score 3). -/
theorem C8_witness :
    exOver.game_active = false ∧
    ((screenOf exOver = Screen.gameOver ↔ 0 < exOver.score) ∧
     (exOver.score = 0 → screenOf exOver = Screen.start)) :=
  ⟨by decide, C8_gameover_iff_positive_score exOver rfl⟩

/-! ### C3 -/

/-- C3: a score pass adds exactly one point per pipe whose right edge
(`x + PIPE_WIDTH`) is strictly left of the bird's left edge and whose
`passed` flag is still clear, and the resulting pipe list is the input list
with `passed` turned on exactly for those pipes — `passed` is never turned
off, so each pair is scored at most once over the whole run. -/
theorem C3_score_once_per_pipe (br : Rect) (ps : List Pipe) (sc : Nat) :
    (update_score br ps sc).2 =
      sc + (ps.filter
        (fun p => p.x + PIPE_WIDTH < br.left && !p.passed)).length ∧
    (update_score br ps sc).1 =
      ps.map (fun p =>
        { p with passed := p.passed || decide (p.x + PIPE_WIDTH < br.left) }) :=
  ⟨update_score_snd br ps sc, update_score_fst br ps sc⟩

/-! ### C4 -/

/-- The two segment heights of a pipe. -/
def pipeHeights (p : Pipe) : Int × Int := (p.top_height, p.bottom_height)

/-- C4: a spawn with a `randint` draw in range appends one pipe whose
top height + gap + bottom height + ground height equals the screen height,
with at least 50px of top clearance and 50px of bottom clearance; pipe
movement and scoring never change the heights of surviving pipes. -/
theorem C4_spawn_geometry (topH : Int) (hlo : min_top_pipe_height ≤ topH)
    (hhi : topH ≤ max_top_pipe_height) (ps qs : List Pipe) (br : Rect)
    (sc : Nat) :
    (∃ q : Pipe, create_pipe topH ps = ps ++ [q] ∧
      q.top_height + PIPE_GAP + q.bottom_height + GROUND_HEIGHT =
        SCREEN_HEIGHT ∧
      50 ≤ q.top_height ∧ 50 ≤ q.bottom_height) ∧
    (move_pipes qs).map pipeHeights =
      (qs.filter (fun p => p.x - PIPE_SPEED + PIPE_WIDTH > 0)).map
        pipeHeights ∧
    (update_score br qs sc).1.map pipeHeights = qs.map pipeHeights := by
  refine ⟨⟨_, rfl, ?_, ?_, ?_⟩, ?_, ?_⟩
  · simp only [PIPE_GAP, GROUND_HEIGHT, SCREEN_HEIGHT]
    omega
  · simpa [min_top_pipe_height] using hlo
  · simp only [min_top_pipe_height, max_top_pipe_height, SCREEN_HEIGHT,
      GROUND_HEIGHT, PIPE_GAP] at hlo hhi ⊢
    omega
  · rw [move_pipes, List.filter_map]
    simp [Function.comp_def, pipeHeights]
  · rw [update_score_fst]
    simp [pipeHeights]

/-- Witness for C4 with the in-range draw `topH = 100`, spawning over the
empty list, and a concrete one-pipe list for the preservation clauses. -/
theorem C4_witness :
    (min_top_pipe_height ≤ 100 ∧ 100 ≤ max_top_pipe_height) ∧
    ((∃ q : Pipe, create_pipe 100 [] = [] ++ [q] ∧
       q.top_height + PIPE_GAP + q.bottom_height + GROUND_HEIGHT =
         SCREEN_HEIGHT ∧
       50 ≤ q.top_height ∧ 50 ≤ q.bottom_height) ∧
     (move_pipes [{ x := 110, top_height := 400, bottom_height := 100,
                    passed := false }]).map pipeHeights =
       ([{ x := 110, top_height := 400, bottom_height := 100,
           passed := false }].filter
         (fun p => p.x - PIPE_SPEED + PIPE_WIDTH > 0)).map pipeHeights ∧
     (update_score { x := 100, y := 300, w := 40, h := 30 }
       [{ x := 110, top_height := 400, bottom_height := 100,
          passed := false }] 0).1.map pipeHeights =
       [{ x := 110, top_height := 400, bottom_height := 100,
          passed := false }].map pipeHeights) :=
  ⟨⟨by decide, by decide⟩,
   C4_spawn_geometry 100 (by decide) (by decide) []
     [{ x := 110, top_height := 400, bottom_height := 100, passed := false }]
     { x := 100, y := 300, w := 40, h := 30 } 0⟩

/-! ### C9 -/

/-- C9: in any active state where the bird sits exactly at
`ground_y - bird_height` with nonnegative velocity, the next frame's updated
bounding box has its bottom at or below the ground top, and the frame ends
the run. -/
theorem C9_ground_contact_next_frame (spawn : Bool) (topH : Int)
    (s : GameState) (h : s.game_active = true)
    (hy : s.bird_y = ((ground_y - bird_height : Int) : ℚ))
    (hv : 0 ≤ s.bird_velocity) :
    ground_y ≤ (bird_rect_of (stepY s)).bottom ∧
    (tick spawn topH s).game_active = false := by
  have hgy : ((ground_y - bird_height : Int) : ℚ) = 670 := by
    norm_num [ground_y, SCREEN_HEIGHT, GROUND_HEIGHT, bird_height]
  have hraw : (670 : ℚ) ≤ rawY s := by
    rw [rawY, stepVel, hy, hgy, gravity]
    linarith
  have h0 : (0 : ℚ) ≤ rawY s := by linarith
  have hstep : stepY s = rawY s := by
    rw [stepY, if_neg (not_lt.mpr h0)]
  have hfl : (670 : Int) ≤ pyTrunc (stepY s) := by
    rw [hstep, pyTrunc_eq_floor _ h0]
    exact Int.le_floor.mpr (by exact_mod_cast hraw)
  have hbot : ground_y ≤ (bird_rect_of (stepY s)).bottom := by
    simp only [bird_rect_of, Rect.bottom, ground_y, SCREEN_HEIGHT,
      GROUND_HEIGHT, bird_height]
    omega
  refine ⟨hbot, ?_⟩
  rw [tick_active spawn topH s h]
  simp [check_collision, hbot]

/-- Witness for C9 at the concrete state `exGround` (bird resting on the
ground boundary with zero velocity). -/
theorem C9_witness :
    exGround.game_active = true ∧
    exGround.bird_y = ((ground_y - bird_height : Int) : ℚ) ∧
    (0 : ℚ) ≤ exGround.bird_velocity ∧
    (ground_y ≤ (bird_rect_of (stepY exGround)).bottom ∧
     (tick false 0 exGround).game_active = false) := by
  have hy : exGround.bird_y = ((ground_y - bird_height : Int) : ℚ) := by
    norm_num [exGround, ground_y, SCREEN_HEIGHT, GROUND_HEIGHT, bird_height]
  have hv : (0 : ℚ) ≤ exGround.bird_velocity := by norm_num [exGround]
  exact ⟨rfl, hy, hv, C9_ground_contact_next_frame false 0 exGround rfl hy hv⟩

/-! ### C10 -/

/-- C10: on an active frame the score update runs after the collision check,
unconditionally — the new score counts every pipe whose right edge moved
past the bird's left edge this frame, also when this very frame set the mode
to game-over. -/
theorem C10_death_frame_still_scores (spawn : Bool) (topH : Int)
    (s : GameState) (h : s.game_active = true) :
    (tick spawn topH s).score =
      s.score + ((move_pipes (spawnedPipes spawn topH s)).filter
        (fun p => p.x + PIPE_WIDTH < (bird_rect_of (stepY s)).left &&
          !p.passed)).length := by
  rw [tick_active spawn topH s h]
  simp [update_score_snd]

/-- Witness for C10 at `exDeathScore`: the bird dies on the ground this
frame while the pipe at `x = 22` moves to `x = 19`, whose right edge `99` is
left of the bird's left edge `100` — the frame both deactivates the game and
raises the score from 0 to 1. -/
theorem C10_witness :
    exDeathScore.game_active = true ∧
    (tick false 0 exDeathScore).game_active = false ∧
    ((tick false 0 exDeathScore).score =
      exDeathScore.score +
        ((move_pipes (spawnedPipes false 0 exDeathScore)).filter
          (fun p => p.x + PIPE_WIDTH <
            (bird_rect_of (stepY exDeathScore)).left && !p.passed)).length) ∧
    (tick false 0 exDeathScore).score = 1 := by
  have hy : stepY exDeathScore = 1341/2 := by
    norm_num [stepY, rawY, stepVel, exDeathScore, gravity]
  have hbr : bird_rect_of (stepY exDeathScore) =
      { x := bird_x, y := 670, w := bird_width, h := bird_height } := by
    rw [bird_rect_of, hy, pyTrunc_eq_floor _ (by norm_num)]
    norm_num
  have hsc := C10_death_frame_still_scores false 0 exDeathScore rfl
  refine ⟨rfl, ?_, hsc, ?_⟩
  · rw [tick_active false 0 exDeathScore rfl]
    simp only [Bool.not_eq_false]
    rw [hbr]
    decide
  · rw [hsc, hbr]
    decide

/-! ### C7 -/

/-- Invariant carried by the pipe list: strictly ascending `x` (list order =
spawn order, earlier pipes further left) and every pipe already moved at
least one step left of the spawn column. -/
def PipesInv (ps : List Pipe) : Prop :=
  ps.Pairwise (fun a b => a.x < b.x) ∧
  ∀ p ∈ ps, p.x ≤ SCREEN_WIDTH - PIPE_SPEED

/-- After the optional spawn the list is still ascending and bounded by the
spawn column. -/
theorem pipesInv_spawned (spawn : Bool) (topH : Int) (s : GameState)
    (h : PipesInv s.pipes) :
    (spawnedPipes spawn topH s).Pairwise (fun a b => a.x < b.x) ∧
    ∀ p ∈ spawnedPipes spawn topH s, p.x ≤ SCREEN_WIDTH := by
  obtain ⟨hp, hb⟩ := h
  cases spawn with
  | false =>
    refine ⟨hp, fun p hm => ?_⟩
    have := hb p hm
    simp only [SCREEN_WIDTH, PIPE_SPEED] at *
    omega
  | true =>
    simp only [spawnedPipes, if_pos, create_pipe]
    constructor
    · rw [List.pairwise_append]
      refine ⟨hp, by simp, fun a ha b hbm => ?_⟩
      rw [List.mem_singleton] at hbm
      subst hbm
      have := hb a ha
      simp only [SCREEN_WIDTH, PIPE_SPEED] at *
      omega
    · intro p hm
      rw [List.mem_append, List.mem_singleton] at hm
      rcases hm with hm | rfl
      · have := hb p hm
        simp only [SCREEN_WIDTH, PIPE_SPEED] at *
        omega
      · simp

/-- Moving (and dropping off-screen) pipes restores the full invariant from
an ascending list bounded by the spawn column. -/
theorem pipesInv_move (ps : List Pipe)
    (hp : ps.Pairwise (fun a b => a.x < b.x))
    (hb : ∀ p ∈ ps, p.x ≤ SCREEN_WIDTH) :
    PipesInv (move_pipes ps) := by
  constructor
  · apply List.Pairwise.filter
    exact List.pairwise_map.mpr (hp.imp (by intro a b hab; dsimp only; omega))
  · intro p hm
    rw [move_pipes, List.mem_filter] at hm
    obtain ⟨hm, _⟩ := hm
    rw [List.mem_map] at hm
    obtain ⟨q, hq, rfl⟩ := hm
    have := hb q hq
    simp only [SCREEN_WIDTH, PIPE_SPEED] at *
    omega

/-- A frame preserves the pipe-list invariant. -/
theorem pipesInv_tick (spawn : Bool) (topH : Int) (s : GameState)
    (h : PipesInv s.pipes) : PipesInv (tick spawn topH s).pipes := by
  cases ha : s.game_active with
  | false =>
    rw [tick_inactive _ _ _ ha]
    exact h
  | true =>
    obtain ⟨hp, hb⟩ := pipesInv_spawned spawn topH s h
    obtain ⟨h1, h2⟩ := pipesInv_move _ hp hb
    rw [tick_active _ _ _ ha]
    show PipesInv (update_score _ _ _).1
    rw [update_score_fst]
    constructor
    · exact List.pairwise_map.mpr (h1.imp (fun hab => hab))
    · intro p hm
      rw [List.mem_map] at hm
      obtain ⟨q, hq, rfl⟩ := hm
      exact h2 q hq

/-- A space press preserves the pipe-list invariant (it either clears the
list or leaves it untouched). -/
theorem pipesInv_pressSpace (s : GameState) (h : PipesInv s.pipes) :
    PipesInv (pressSpace s).pipes := by
  cases ha : s.game_active with
  | false =>
    rw [pressSpace]
    simp only [ha, Bool.not_false, if_pos]
    exact ⟨List.Pairwise.nil, by simp⟩
  | true =>
    rw [pressSpace]
    simp only [ha, Bool.not_true, Bool.false_eq_true, if_false]
    exact h

/-- Every reachable state satisfies the pipe-list invariant. -/
theorem reachable_pipesInv (s : GameState) (h : Reachable s) :
    PipesInv s.pipes := by
  induction h with
  | refl => exact ⟨List.Pairwise.nil, by simp [initState]⟩
  | tail hpre hstep ih =>
    cases hstep with
    | frame spawn topH hlo hhi => exact pipesInv_tick spawn topH _ ih
    | space => exact pipesInv_pressSpace _ ih

/-- C7 (amended): in every reachable state the obstacle collection is ordered
by spawn time, which is an ordering by ASCENDING horizontal position —
earlier-spawned pipes have strictly smaller `x` than later-spawned ones. -/
theorem C7_pipes_ascending (s : GameState) (h : Reachable s) :
    s.pipes.Pairwise (fun a b => a.x < b.x) :=
  (reachable_pipesInv s h).1

/-- The state one spawning frame after starting a run. -/
def exOnePipe : GameState :=
  { bird_y := 801/2, bird_velocity := 1/2,
    pipes := [{ x := 597, top_height := 100, bottom_height := 400,
                passed := false }],
    score := 0, game_active := true }

/-- The state two consecutive spawning frames after starting a run. -/
def exTwoPipes : GameState :=
  { bird_y := 803/2, bird_velocity := 1,
    pipes := [{ x := 594, top_height := 100, bottom_height := 400,
                passed := false },
              { x := 597, top_height := 100, bottom_height := 400,
                passed := false }],
    score := 0, game_active := true }

/-- Evaluation of the first spawning frame after the start input. -/
theorem tick_start_eq : tick true 100 (pressSpace initState) = exOnePipe := by
  have hy : stepY (pressSpace initState) = 801/2 := by
    norm_num [stepY, rawY, stepVel, pressSpace, initState, gravity,
      SCREEN_HEIGHT]
  have hbr : bird_rect_of (stepY (pressSpace initState)) =
      { x := 100, y := 400, w := 40, h := 30 } := by
    rw [bird_rect_of, hy, pyTrunc_eq_floor _ (by norm_num)]
    norm_num [bird_x, bird_width, bird_height]
  rw [tick_active _ _ _ rfl, hbr]
  simp only [exOnePipe, GameState.mk.injEq]
  refine ⟨hy, ?_, ?_, ?_, ?_⟩
  · norm_num [rawY, stepVel, pressSpace, initState, gravity, SCREEN_HEIGHT]
  · decide
  · decide
  · decide

/-- Evaluation of the second consecutive spawning frame. -/
theorem tick_exOnePipe_eq : tick true 100 exOnePipe = exTwoPipes := by
  have hy : stepY exOnePipe = 803/2 := by
    norm_num [stepY, rawY, stepVel, exOnePipe, gravity]
  have hbr : bird_rect_of (stepY exOnePipe) =
      { x := 100, y := 401, w := 40, h := 30 } := by
    rw [bird_rect_of, hy, pyTrunc_eq_floor _ (by norm_num)]
    norm_num [bird_x, bird_width, bird_height]
  rw [tick_active _ _ _ rfl, hbr]
  simp only [exTwoPipes, GameState.mk.injEq]
  refine ⟨hy, ?_, ?_, ?_, ?_⟩
  · norm_num [rawY, stepVel, exOnePipe, gravity]
  · decide
  · decide
  · decide

/-- `exTwoPipes` is reached from the initial state by a space press followed
by two spawning frames with in-range `randint` draws. -/
theorem exTwoPipes_reachable : Reachable exTwoPipes := by
  have h2 : Step (pressSpace initState) exOnePipe := by
    have h := Step.frame true 100 (pressSpace initState)
      (by decide) (by decide)
    rwa [tick_start_eq] at h
  have h3 : Step exOnePipe exTwoPipes := by
    have h := Step.frame true 100 exOnePipe (by decide) (by decide)
    rwa [tick_exOnePipe_eq] at h
  exact Relation.ReflTransGen.head (Step.space initState)
    (Relation.ReflTransGen.head h2 (Relation.ReflTransGen.single h3))

/-- Counterexample to C7 as stated: in the reachable state `exTwoPipes` the
earlier-spawned pipe sits at `x = 594`, strictly LEFT of the later-spawned
pipe at `x = 597`, so the collection is not ordered by descending horizontal
position (earlier pipes do not have larger `x`). -/
theorem C7_counterexample :
    Reachable exTwoPipes ∧
    exTwoPipes.pipes.map Pipe.x = [594, 597] ∧
    ¬ exTwoPipes.pipes.Pairwise (fun a b => b.x ≤ a.x) :=
  ⟨exTwoPipes_reachable, by decide, by decide⟩

/-- Witness for the amended C7 at the reachable state `exTwoPipes`. -/
theorem C7_witness :
    Reachable exTwoPipes ∧
    exTwoPipes.pipes.Pairwise (fun a b => a.x < b.x) :=
  ⟨exTwoPipes_reachable, C7_pipes_ascending exTwoPipes exTwoPipes_reachable⟩
